import Mathlib

/-!
Verification of the AQI engine and coordinate validator of
`polclisat8.py` (ParthaPRay/AQI_location_India).

The numeric core of the program is shallowly embedded over `ℚ`:
pollutant concentrations, breakpoint bounds and index values are all
exact decimal numbers in the source tables, so rational arithmetic
models the intended real-number computation exactly.  A Python
exception (IndexError on an empty table, ZeroDivisionError on a
degenerate band) is modelled by `Option.none` / `Except.error`.
-/

/-- One row `(concentration_low, concentration_high, index_low, index_high)`
of a breakpoint table, as in `AQI_BREAKPOINTS` of `polclisat8.py`. -/
structure Band where
  cLow : ℚ
  cHigh : ℚ
  iLow : ℚ
  iHigh : ℚ
deriving DecidableEq, Repr

/-- The Python membership test `C_low <= C <= C_high` (inclusive both ends). -/
def bandMatches (C : ℚ) (b : Band) : Bool :=
  decide (b.cLow ≤ C ∧ C ≤ b.cHigh)

/-- The linear interpolation
`((I_high - I_low)/(C_high - C_low)) * (C - C_low) + I_low`
performed inside the matching band (line 59 of `polclisat8.py`). -/
def interp (b : Band) (C : ℚ) : ℚ :=
  ((b.iHigh - b.iLow) / (b.cHigh - b.cLow)) * (C - b.cLow) + b.iLow

/-- `sub_index(C, breakpoints)` of `polclisat8.py` (lines 56–62):
scan the bands in table order, return the interpolated index of the
first band containing `C`; if none matches, return the first band's
`index_low` when `C` is below its lower bound and otherwise the last
band's `index_high`.  `none` models the Python exceptions: IndexError
when the table is empty, ZeroDivisionError when the matched band has
`C_high = C_low`. -/
def sub_index (C : ℚ) : List Band → Option ℚ
  | [] => none
  | b0 :: rest =>
    match (b0 :: rest).find? (bandMatches C) with
    | some b => if b.cHigh - b.cLow = 0 then none else some (interp b C)
    | none =>
      if C < b0.cLow then some b0.iLow
      else some (rest.getLastD b0).iHigh

/-- `AQI_BREAKPOINTS["pm2_5"]` (lines 23–24). -/
def bp_pm2_5 : List Band :=
  [⟨0, 30, 0, 50⟩, ⟨30, 60, 51, 100⟩, ⟨60, 90, 101, 200⟩,
   ⟨90, 120, 201, 300⟩, ⟨120, 250, 301, 400⟩, ⟨250, 350, 401, 500⟩]

/-- `AQI_BREAKPOINTS["pm10"]` (lines 25–26). -/
def bp_pm10 : List Band :=
  [⟨0, 50, 0, 50⟩, ⟨50, 100, 51, 100⟩, ⟨100, 250, 101, 200⟩,
   ⟨250, 350, 201, 300⟩, ⟨350, 430, 301, 400⟩, ⟨430, 600, 401, 500⟩]

/-- `AQI_BREAKPOINTS["carbon_monoxide"]` (lines 27–28), bounds in mg/m³. -/
def bp_carbon_monoxide : List Band :=
  [⟨0, 1, 0, 50⟩, ⟨1, 2, 51, 100⟩, ⟨2, 10, 101, 200⟩,
   ⟨10, 17, 201, 300⟩, ⟨17, 34, 301, 400⟩, ⟨34, 50, 401, 500⟩]

/-- `AQI_BREAKPOINTS["nitrogen_dioxide"]` (lines 29–30). -/
def bp_nitrogen_dioxide : List Band :=
  [⟨0, 40, 0, 50⟩, ⟨40, 80, 51, 100⟩, ⟨80, 180, 101, 200⟩,
   ⟨180, 280, 201, 300⟩, ⟨280, 400, 301, 400⟩, ⟨400, 1000, 401, 500⟩]

/-- `AQI_BREAKPOINTS["sulphur_dioxide"]` (lines 31–32). -/
def bp_sulphur_dioxide : List Band :=
  [⟨0, 40, 0, 50⟩, ⟨40, 80, 51, 100⟩, ⟨80, 380, 101, 200⟩,
   ⟨380, 800, 201, 300⟩, ⟨800, 1600, 301, 400⟩, ⟨1600, 2000, 401, 500⟩]

/-- `AQI_BREAKPOINTS["ozone"]` (lines 33–34). -/
def bp_ozone : List Band :=
  [⟨0, 50, 0, 50⟩, ⟨50, 100, 51, 100⟩, ⟨100, 168, 101, 200⟩,
   ⟨168, 208, 201, 300⟩, ⟨208, 748, 301, 400⟩, ⟨748, 1000, 401, 500⟩]

/-- The six breakpoint tables, in the order of `AQI_BREAKPOINTS`. -/
def tables : List (List Band) :=
  [bp_pm2_5, bp_pm10, bp_carbon_monoxide,
   bp_nitrogen_dioxide, bp_sulphur_dioxide, bp_ozone]

/-- One row `(low, high, label, color)` of `AQI_BANDS` (lines 37–44). -/
structure AqiBand where
  low : ℚ
  high : ℚ
  label : String
  color : String
deriving DecidableEq, Repr

/-- `AQI_BANDS` of `polclisat8.py` (lines 37–44). -/
def AQI_BANDS : List AqiBand :=
  [⟨0, 50, "Good", "#009966"⟩,
   ⟨51, 100, "Satisfactory", "#ffde33"⟩,
   ⟨101, 200, "Moderate", "#ff9933"⟩,
   ⟨201, 300, "Poor", "#cc0033"⟩,
   ⟨301, 400, "Very Poor", "#660099"⟩,
   ⟨401, 500, "Severe", "#7e0023"⟩]

/-- `aqi_color(aqi)` of `polclisat8.py` (lines 64–68): return the
`(color, label)` of the first AQI band whose `[low, high]` contains the
value (inclusive both ends), or the sentinel when none matches. -/
def aqi_color (aqi : ℚ) : String × String :=
  match AQI_BANDS.find? (fun b => decide (b.low ≤ aqi ∧ aqi ≤ b.high)) with
  | some b => (b.color, b.label)
  | none => ("#000000", "Unknown")

/-- `is_within_india(lat, lon)` of `polclisat8.py` (lines 70–71). -/
def is_within_india (lat lon : ℚ) : Bool :=
  decide (6 ≤ lat ∧ lat ≤ 36) && decide (68 ≤ lon ∧ lon ≤ 98)

/-- The composite-AQI core of `get_air_quality` (lines 229–240): the raw
CO reading (µg/m³) is divided by 1000 (mg/m³), the six sub-indices are
computed against their own tables, and the Python `max` of the six is
returned.  `none` models a Python exception escaping from `sub_index`
(it never fires on the six concrete tables). -/
def composite_aqi (pm25 pm10 co_raw no2 so2 o3 : ℚ) : Option ℚ := do
  let co := co_raw / 1000
  let idx_pm25 ← sub_index pm25 bp_pm2_5
  let idx_pm10 ← sub_index pm10 bp_pm10
  let idx_co ← sub_index co bp_carbon_monoxide
  let idx_no2 ← sub_index no2 bp_nitrogen_dioxide
  let idx_so2 ← sub_index so2 bp_sulphur_dioxide
  let idx_o3 ← sub_index o3 bp_ozone
  pure (max idx_pm25 (max idx_pm10 (max idx_co (max idx_no2 (max idx_so2 idx_o3)))))

/-- The red inline error panel built by the `except` branch of
`get_climate_data` (line 146). -/
def climate_error_html (e : String) : String :=
  "<div style='color:red;padding:.5em;'>Climate data unavailable: " ++ e ++ "</div>"

/-- The red inline error panel built by the `except` branch of
`create_india_map` (line 350). -/
def map_error_html (e : String) : String :=
  "<div style='color:red;padding:1em;'>Error generating map: " ++ e ++ "</div>"

/-- The try/except control skeleton of `get_climate_data`
(lines 101–146): the whole upstream fetch and rendering is wrapped in
`try`; an exception is caught locally and turned into the red error
panel, so the function always returns a normal string.  The fetch and
the success-path rendering are abstracted as `fetch` and `render`. -/
def get_climate_data {α : Type} (render : α → String) (fetch : Except String α) : String :=
  match fetch with
  | .ok r => render r
  | .error e => climate_error_html e

/-- The try/except control skeleton of `create_india_map`
(lines 308–350), analogous to `get_climate_data`. -/
def create_india_map {α : Type} (render : α → String) (build : Except String α) : String :=
  match build with
  | .ok r => render r
  | .error e => map_error_html e

/-- The control skeleton of `get_air_quality` (lines 212–286): the
upstream fetch is not wrapped in any `try`, so an exception propagates
to the caller (`Except.error`). -/
def get_air_quality {α : Type} (render : α → String) (fetch : Except String α) :
    Except String String :=
  match fetch with
  | .ok r => .ok (render r)
  | .error e => .error e

/-- The control skeleton of `get_satellite_radiation` (lines 151–207):
like `get_air_quality`, no local `try`, exceptions propagate. -/
def get_satellite_radiation {α : Type} (render : α → String) (fetch : Except String α) :
    Except String String :=
  match fetch with
  | .ok r => .ok (render r)
  | .error e => .error e

/-- Membership in the union of the six AQI index ranges
`[0,50] ∪ [51,100] ∪ [101,200] ∪ [201,300] ∪ [301,400] ∪ [401,500]`. -/
def inUnion (r : ℚ) : Prop :=
  (0 ≤ r ∧ r ≤ 50) ∨ (51 ≤ r ∧ r ≤ 100) ∨ (101 ≤ r ∧ r ≤ 200) ∨
  (201 ≤ r ∧ r ≤ 300) ∨ (301 ≤ r ∧ r ≤ 400) ∨ (401 ≤ r ∧ r ≤ 500)

instance inUnion.decidable : DecidablePred inUnion := fun r => by
  unfold inUnion; infer_instance

/-- Structural facts about a breakpoint table that hold for all six
tables of `AQI_BREAKPOINTS`: every band is concentration-nondegenerate,
index-monotone, and its index range is one of the six AQI ranges. -/
def tableOK (t : List Band) : Prop :=
  ∀ b ∈ t, b.cLow < b.cHigh ∧ b.iLow ≤ b.iHigh ∧
    ((b.iLow = 0 ∧ b.iHigh = 50) ∨ (b.iLow = 51 ∧ b.iHigh = 100) ∨
     (b.iLow = 101 ∧ b.iHigh = 200) ∨ (b.iLow = 201 ∧ b.iHigh = 300) ∨
     (b.iLow = 301 ∧ b.iHigh = 400) ∨ (b.iLow = 401 ∧ b.iHigh = 500))

/-! ### Helper lemmas -/

/-- A successful `List.find?` splits the list at the first element
satisfying the predicate. -/
theorem find_first_split {α : Type} (p : α → Bool) (l : List α) (b : α)
    (h : l.find? p = some b) :
    ∃ l₁ l₂, l = l₁ ++ b :: l₂ ∧ p b = true ∧ ∀ x ∈ l₁, p x = false := by
  induction l with
  | nil => simp [List.find?] at h
  | cons a t ih =>
    by_cases hpa : p a
    · rw [List.find?_cons_of_pos _ hpa] at h
      obtain rfl : a = b := by injection h
      exact ⟨[], t, rfl, hpa, by simp⟩
    · rw [List.find?_cons_of_neg _ hpa] at h
      obtain ⟨l₁, l₂, rfl, hpb, hall⟩ := ih h
      refine ⟨a :: l₁, l₂, rfl, hpb, ?_⟩
      intro x hx
      rcases List.mem_cons.mp hx with rfl | hx
      · simpa using hpa
      · exact hall x hx

/-- Evaluation of `sub_index` when some band matches. -/
theorem sub_index_eq_of_find (bps : List Band) (C : ℚ) (b : Band)
    (hfind : bps.find? (bandMatches C) = some b) (hne : b.cHigh - b.cLow ≠ 0) :
    sub_index C bps = some (interp b C) := by
  cases bps with
  | nil => simp [List.find?] at hfind
  | cons b0 rest => simp [sub_index, hfind, hne]

/-- Evaluation of `sub_index` when no band matches. -/
theorem sub_index_eq_of_none (b0 : Band) (rest : List Band) (C : ℚ)
    (hfind : (b0 :: rest).find? (bandMatches C) = none) :
    sub_index C (b0 :: rest) =
      if C < b0.cLow then some b0.iLow else some (rest.getLastD b0).iHigh := by
  simp [sub_index, hfind]

/-! ### Claim theorems -/

/-- C1: for every breakpoint table whose bands have nondegenerate
concentration ranges and every concentration `C` contained in some band
(inclusive both ends), `sub_index` returns the linear interpolation
`((I_high - I_low)/(C_high - C_low)) * (C - C_low) + I_low` computed
from the first band in table order that contains `C`; a boundary value
shared by two consecutive bands is therefore resolved by the earlier
band. -/
theorem sub_index_first_match (bps : List Band) (C : ℚ)
    (hwf : ∀ b ∈ bps, b.cLow < b.cHigh)
    (h : ∃ b ∈ bps, b.cLow ≤ C ∧ C ≤ b.cHigh) :
    ∃ l₁ b l₂, bps = l₁ ++ b :: l₂ ∧ (b.cLow ≤ C ∧ C ≤ b.cHigh) ∧
      (∀ b' ∈ l₁, ¬(b'.cLow ≤ C ∧ C ≤ b'.cHigh)) ∧
      sub_index C bps =
        some (((b.iHigh - b.iLow) / (b.cHigh - b.cLow)) * (C - b.cLow) + b.iLow) := by
  have hsome : (bps.find? (bandMatches C)).isSome := by
    rw [List.find?_isSome]
    obtain ⟨b, hb, hcond⟩ := h
    exact ⟨b, hb, by simpa [bandMatches] using hcond⟩
  obtain ⟨b, hfind⟩ := Option.isSome_iff_exists.mp hsome
  obtain ⟨l₁, l₂, hsplit, hpb, hall⟩ := find_first_split _ _ _ hfind
  have hmem : b ∈ bps := List.mem_of_find?_eq_some hfind
  have hlt := hwf b hmem
  refine ⟨l₁, b, l₂, hsplit, by simpa [bandMatches] using hpb, ?_, ?_⟩
  · intro b' hb'
    simpa [bandMatches] using hall b' hb'
  · have := sub_index_eq_of_find bps C b hfind (by intro hc; rw [sub_eq_zero] at hc; exact absurd hc (ne_of_gt hlt))
    simpa [interp] using this

/-- Witness for C1 at the PM2.5 table and the shared boundary `C = 30`:
bands 1 and 2 both contain 30, the first one wins. -/
theorem sub_index_first_match_witness :
    ∃ l₁ b l₂, bp_pm2_5 = l₁ ++ b :: l₂ ∧ (b.cLow ≤ 30 ∧ (30 : ℚ) ≤ b.cHigh) ∧
      (∀ b' ∈ l₁, ¬(b'.cLow ≤ 30 ∧ (30 : ℚ) ≤ b'.cHigh)) ∧
      sub_index 30 bp_pm2_5 =
        some (((b.iHigh - b.iLow) / (b.cHigh - b.cLow)) * (30 - b.cLow) + b.iLow) :=
  sub_index_first_match bp_pm2_5 30 (by decide) (by decide)

/-- C2: with a nonempty table whose first band has the least lower
bound (true of all six tables), `sub_index` saturates: a concentration
below the first band's lower bound returns that band's `index_low`, a
concentration matching no band and not below the table returns the last
band's `index_high`, and the result is always `some` — no fault.  The
spec's two examples on the PM2.5 table are included. -/
theorem sub_index_saturates (b0 : Band) (rest : List Band) (C : ℚ)
    (hwf : ∀ b ∈ b0 :: rest, b.cLow < b.cHigh)
    (hmin : ∀ b ∈ b0 :: rest, b0.cLow ≤ b.cLow) :
    (C < b0.cLow → sub_index C (b0 :: rest) = some b0.iLow) ∧
    ((b0 :: rest).find? (bandMatches C) = none → ¬ C < b0.cLow →
      sub_index C (b0 :: rest) = some (rest.getLastD b0).iHigh) ∧
    (sub_index C (b0 :: rest)).isSome = true ∧
    sub_index (-5) bp_pm2_5 = some 0 ∧
    sub_index 1000 bp_pm2_5 = some 500 := by
  refine ⟨?_, ?_, ?_, ?_, ?_⟩
  · intro hC
    have hfind : (b0 :: rest).find? (bandMatches C) = none := by
      rw [List.find?_eq_none]
      intro b hb
      simp only [bandMatches, decide_eq_true_eq]
      rintro ⟨h1, h2⟩
      have := hmin b hb
      linarith
    rw [sub_index_eq_of_none _ _ _ hfind, if_pos hC]
  · intro hfind hC
    rw [sub_index_eq_of_none _ _ _ hfind, if_neg hC]
  · cases hfind : (b0 :: rest).find? (bandMatches C) with
    | some b =>
      have hlt := hwf b (List.mem_of_find?_eq_some hfind)
      rw [sub_index_eq_of_find _ _ _ hfind
        (by intro hc; rw [sub_eq_zero] at hc; exact absurd hc (ne_of_gt hlt))]
      rfl
    | none =>
      rw [sub_index_eq_of_none _ _ _ hfind]
      split <;> rfl
  · simp only [sub_index, bp_pm2_5]
    norm_num [bandMatches, List.find?, interp, List.getLastD]
  · simp only [sub_index, bp_pm2_5]
    norm_num [bandMatches, List.find?, interp, List.getLastD]

/-- Witness for C2 at the PM2.5 table with `C = -5`. -/
theorem sub_index_saturates_witness :
    ((-5 : ℚ) < (Band.mk 0 30 0 50).cLow →
      sub_index (-5) (Band.mk 0 30 0 50 ::
        [Band.mk 30 60 51 100, Band.mk 60 90 101 200, Band.mk 90 120 201 300,
         Band.mk 120 250 301 400, Band.mk 250 350 401 500]) =
        some (Band.mk 0 30 0 50).iLow) ∧
    ((Band.mk 0 30 0 50 ::
        [Band.mk 30 60 51 100, Band.mk 60 90 101 200, Band.mk 90 120 201 300,
         Band.mk 120 250 301 400, Band.mk 250 350 401 500]).find? (bandMatches (-5)) = none →
      ¬ (-5 : ℚ) < (Band.mk 0 30 0 50).cLow →
      sub_index (-5) (Band.mk 0 30 0 50 ::
        [Band.mk 30 60 51 100, Band.mk 60 90 101 200, Band.mk 90 120 201 300,
         Band.mk 120 250 301 400, Band.mk 250 350 401 500]) =
        some (([Band.mk 30 60 51 100, Band.mk 60 90 101 200, Band.mk 90 120 201 300,
                Band.mk 120 250 301 400,
                Band.mk 250 350 401 500].getLastD (Band.mk 0 30 0 50)).iHigh)) ∧
    (sub_index (-5) (Band.mk 0 30 0 50 ::
        [Band.mk 30 60 51 100, Band.mk 60 90 101 200, Band.mk 90 120 201 300,
         Band.mk 120 250 301 400, Band.mk 250 350 401 500])).isSome = true ∧
    sub_index (-5) bp_pm2_5 = some 0 ∧
    sub_index 1000 bp_pm2_5 = some 500 :=
  sub_index_saturates (Band.mk 0 30 0 50)
    [Band.mk 30 60 51 100, Band.mk 60 90 101 200, Band.mk 90 120 201 300,
     Band.mk 120 250 301 400, Band.mk 250 350 401 500] (-5) (by decide) (by decide)

/-- Evaluation: PM2.5 sub-index of 30 is exactly 50 (boundary of the
first band, first-match). -/
theorem sub_index_pm2_5_at_30 : sub_index 30 bp_pm2_5 = some 50 := by
  simp only [sub_index, bp_pm2_5]
  norm_num [bandMatches, List.find?, interp]

/-- Evaluation: PM10 sub-index of 50 is exactly 50. -/
theorem sub_index_pm10_at_50 : sub_index 50 bp_pm10 = some 50 := by
  simp only [sub_index, bp_pm10]
  norm_num [bandMatches, List.find?, interp]

/-- Evaluation: the CO sub-index of 1 mg/m³ is exactly 50. -/
theorem sub_index_co_at_1 : sub_index (1 : ℚ) bp_carbon_monoxide = some 50 := by
  simp only [sub_index, bp_carbon_monoxide]
  norm_num [bandMatches, List.find?, interp]

/-- Evaluation: the CO sub-index of a raw 1000 µg/m³ reading
(1 mg/m³ after conversion) is exactly 50. -/
theorem sub_index_co_at_raw_1000 : sub_index ((1000 : ℚ) / 1000) bp_carbon_monoxide = some 50 := by
  rw [show ((1000 : ℚ) / 1000) = 1 by norm_num]
  exact sub_index_co_at_1

/-- Evaluation: NO2 sub-index of 40 is exactly 50. -/
theorem sub_index_no2_at_40 : sub_index 40 bp_nitrogen_dioxide = some 50 := by
  simp only [sub_index, bp_nitrogen_dioxide]
  norm_num [bandMatches, List.find?, interp]

/-- Evaluation: SO2 sub-index of 40 is exactly 50. -/
theorem sub_index_so2_at_40 : sub_index 40 bp_sulphur_dioxide = some 50 := by
  simp only [sub_index, bp_sulphur_dioxide]
  norm_num [bandMatches, List.find?, interp]

/-- Evaluation: O3 sub-index of 50 is exactly 50. -/
theorem sub_index_o3_at_50 : sub_index 50 bp_ozone = some 50 := by
  simp only [sub_index, bp_ozone]
  norm_num [bandMatches, List.find?, interp]

/-- C3: the composite AQI divides the raw CO reading by 1000, computes
the six sub-indices against their own tables and returns their maximum;
on the spec's example readings (PM2.5=30, PM10=50, raw CO=1000 µg/m³,
NO2=40, SO2=40, O3=50) every sub-index is 50 and the composite is
exactly 50. -/
theorem composite_aqi_is_max (pm25 pm10 co_raw no2 so2 o3 v1 v2 v3 v4 v5 v6 : ℚ)
    (h1 : sub_index pm25 bp_pm2_5 = some v1)
    (h2 : sub_index pm10 bp_pm10 = some v2)
    (h3 : sub_index (co_raw / 1000) bp_carbon_monoxide = some v3)
    (h4 : sub_index no2 bp_nitrogen_dioxide = some v4)
    (h5 : sub_index so2 bp_sulphur_dioxide = some v5)
    (h6 : sub_index o3 bp_ozone = some v6) :
    composite_aqi pm25 pm10 co_raw no2 so2 o3 =
      some (max v1 (max v2 (max v3 (max v4 (max v5 v6))))) ∧
    composite_aqi 30 50 1000 40 40 50 = some 50 := by
  constructor
  · simp [composite_aqi, h1, h2, h3, h4, h5, h6]
  · simp [composite_aqi, sub_index_pm2_5_at_30, sub_index_pm10_at_50,
      sub_index_co_at_raw_1000, sub_index_co_at_1, sub_index_no2_at_40,
      sub_index_so2_at_40, sub_index_o3_at_50, max_self]

/-- Witness for C3 at the spec's example readings. -/
theorem composite_aqi_is_max_witness :
    (composite_aqi 30 50 1000 40 40 50 =
      some (max 50 (max 50 (max 50 (max 50 (max (50 : ℚ) 50))))) ∧
     composite_aqi 30 50 1000 40 40 50 = some 50) :=
  composite_aqi_is_max 30 50 1000 40 40 50 50 50 50 50 50 50
    sub_index_pm2_5_at_30 sub_index_pm10_at_50 sub_index_co_at_raw_1000
    sub_index_no2_at_40 sub_index_so2_at_40 sub_index_o3_at_50

/-- C4 is false as stated: the PM2.5 band `(30,60,51,100)` has lower
bound 30 and `index_low` 51, but `sub_index 30` returns 50 (the first
band `(0,30,0,50)` also contains 30 and wins), not 51. -/
theorem sub_index_lower_bound_counterexample :
    Band.mk 30 60 51 100 ∈ bp_pm2_5 ∧
    (Band.mk 30 60 51 100).cLow = 30 ∧ (Band.mk 30 60 51 100).iLow = 51 ∧
    sub_index 30 bp_pm2_5 = some 50 ∧ some (50 : ℚ) ≠ some (51 : ℚ) :=
  ⟨by decide, rfl, rfl, sub_index_pm2_5_at_30, by decide⟩

/-- C4 corrected: for every band of each of the six tables, `sub_index`
at the band's upper bound yields exactly `index_high` and at the
midpoint yields the mean of `index_low` and `index_high`; at the lower
bound it yields `index_low` only for the first band, while for every
later band (whose lower bound is the previous band's upper bound) it
yields the previous band's `index_high`. -/
theorem sub_index_band_endpoints (t : List Band) (ht : t ∈ tables) :
    (∀ b ∈ t, sub_index b.cHigh t = some b.iHigh ∧
      sub_index ((b.cLow + b.cHigh) / 2) t = some ((b.iLow + b.iHigh) / 2)) ∧
    sub_index ((t.headD (Band.mk 0 0 0 0)).cLow) t =
      some ((t.headD (Band.mk 0 0 0 0)).iLow) ∧
    t.Chain' (fun a b => sub_index b.cLow t = some a.iHigh) := by
  fin_cases ht <;>
    refine ⟨fun b hb => ?_, ?_, ?_⟩ <;>
    first
    | (fin_cases hb <;>
        constructor <;>
        · simp only [sub_index, bp_pm2_5, bp_pm10, bp_carbon_monoxide,
            bp_nitrogen_dioxide, bp_sulphur_dioxide, bp_ozone]
          norm_num [bandMatches, List.find?, interp, List.getLastD])
    | · simp only [sub_index, bp_pm2_5, bp_pm10, bp_carbon_monoxide,
          bp_nitrogen_dioxide, bp_sulphur_dioxide, bp_ozone, List.headD,
          List.chain'_cons, List.chain'_singleton]
        norm_num [bandMatches, List.find?, interp, List.getLastD]

/-- Witness for the corrected C4 at the PM2.5 table. -/
theorem sub_index_band_endpoints_witness :
    (∀ b ∈ bp_pm2_5, sub_index b.cHigh bp_pm2_5 = some b.iHigh ∧
      sub_index ((b.cLow + b.cHigh) / 2) bp_pm2_5 = some ((b.iLow + b.iHigh) / 2)) ∧
    sub_index ((bp_pm2_5.headD (Band.mk 0 0 0 0)).cLow) bp_pm2_5 =
      some ((bp_pm2_5.headD (Band.mk 0 0 0 0)).iLow) ∧
    bp_pm2_5.Chain' (fun a b => sub_index b.cLow bp_pm2_5 = some a.iHigh) :=
  sub_index_band_endpoints bp_pm2_5 (by decide)

/-- Evaluation of `aqi_color` on the first AQI band. -/
theorem aqi_color_in_band1 (r : ℚ) (h1 : 0 ≤ r) (h2 : r ≤ 50) :
    aqi_color r = ("#009966", "Good") := by
  unfold aqi_color AQI_BANDS
  rw [List.find?_cons_of_pos _ (by simp only [decide_eq_true_eq]; exact ⟨h1, h2⟩)]

/-- Evaluation of `aqi_color` on the second AQI band. -/
theorem aqi_color_in_band2 (r : ℚ) (h1 : 51 ≤ r) (h2 : r ≤ 100) :
    aqi_color r = ("#ffde33", "Satisfactory") := by
  unfold aqi_color AQI_BANDS
  rw [List.find?_cons_of_neg _ (by simp only [decide_eq_true_eq]; rintro ⟨-, hb⟩; linarith),
    List.find?_cons_of_pos _ (by simp only [decide_eq_true_eq]; exact ⟨h1, h2⟩)]

/-- Evaluation of `aqi_color` on the third AQI band. -/
theorem aqi_color_in_band3 (r : ℚ) (h1 : 101 ≤ r) (h2 : r ≤ 200) :
    aqi_color r = ("#ff9933", "Moderate") := by
  unfold aqi_color AQI_BANDS
  rw [List.find?_cons_of_neg _ (by simp only [decide_eq_true_eq]; rintro ⟨-, hb⟩; linarith),
    List.find?_cons_of_neg _ (by simp only [decide_eq_true_eq]; rintro ⟨-, hb⟩; linarith),
    List.find?_cons_of_pos _ (by simp only [decide_eq_true_eq]; exact ⟨h1, h2⟩)]

/-- Evaluation of `aqi_color` on the fourth AQI band. -/
theorem aqi_color_in_band4 (r : ℚ) (h1 : 201 ≤ r) (h2 : r ≤ 300) :
    aqi_color r = ("#cc0033", "Poor") := by
  unfold aqi_color AQI_BANDS
  rw [List.find?_cons_of_neg _ (by simp only [decide_eq_true_eq]; rintro ⟨-, hb⟩; linarith),
    List.find?_cons_of_neg _ (by simp only [decide_eq_true_eq]; rintro ⟨-, hb⟩; linarith),
    List.find?_cons_of_neg _ (by simp only [decide_eq_true_eq]; rintro ⟨-, hb⟩; linarith),
    List.find?_cons_of_pos _ (by simp only [decide_eq_true_eq]; exact ⟨h1, h2⟩)]

/-- Evaluation of `aqi_color` on the fifth AQI band. -/
theorem aqi_color_in_band5 (r : ℚ) (h1 : 301 ≤ r) (h2 : r ≤ 400) :
    aqi_color r = ("#660099", "Very Poor") := by
  unfold aqi_color AQI_BANDS
  rw [List.find?_cons_of_neg _ (by simp only [decide_eq_true_eq]; rintro ⟨-, hb⟩; linarith),
    List.find?_cons_of_neg _ (by simp only [decide_eq_true_eq]; rintro ⟨-, hb⟩; linarith),
    List.find?_cons_of_neg _ (by simp only [decide_eq_true_eq]; rintro ⟨-, hb⟩; linarith),
    List.find?_cons_of_neg _ (by simp only [decide_eq_true_eq]; rintro ⟨-, hb⟩; linarith),
    List.find?_cons_of_pos _ (by simp only [decide_eq_true_eq]; exact ⟨h1, h2⟩)]

/-- Evaluation of `aqi_color` on the sixth AQI band. -/
theorem aqi_color_in_band6 (r : ℚ) (h1 : 401 ≤ r) (h2 : r ≤ 500) :
    aqi_color r = ("#7e0023", "Severe") := by
  unfold aqi_color AQI_BANDS
  rw [List.find?_cons_of_neg _ (by simp only [decide_eq_true_eq]; rintro ⟨-, hb⟩; linarith),
    List.find?_cons_of_neg _ (by simp only [decide_eq_true_eq]; rintro ⟨-, hb⟩; linarith),
    List.find?_cons_of_neg _ (by simp only [decide_eq_true_eq]; rintro ⟨-, hb⟩; linarith),
    List.find?_cons_of_neg _ (by simp only [decide_eq_true_eq]; rintro ⟨-, hb⟩; linarith),
    List.find?_cons_of_neg _ (by simp only [decide_eq_true_eq]; rintro ⟨-, hb⟩; linarith),
    List.find?_cons_of_pos _ (by simp only [decide_eq_true_eq]; exact ⟨h1, h2⟩)]

/-- A value in the union of the six index ranges never gets the
sentinel. -/
theorem aqi_color_ne_sentinel (r : ℚ) (h : inUnion r) :
    aqi_color r ≠ ("#000000", "Unknown") := by
  rcases h with ⟨h1, h2⟩ | ⟨h1, h2⟩ | ⟨h1, h2⟩ | ⟨h1, h2⟩ | ⟨h1, h2⟩ | ⟨h1, h2⟩
  · rw [aqi_color_in_band1 r h1 h2]; decide
  · rw [aqi_color_in_band2 r h1 h2]; decide
  · rw [aqi_color_in_band3 r h1 h2]; decide
  · rw [aqi_color_in_band4 r h1 h2]; decide
  · rw [aqi_color_in_band5 r h1 h2]; decide
  · rw [aqi_color_in_band6 r h1 h2]; decide

/-- A value outside the union of the six index ranges always gets the
sentinel. -/
theorem aqi_color_sentinel_of_not (r : ℚ) (h : ¬ inUnion r) :
    aqi_color r = ("#000000", "Unknown") := by
  have hfind : AQI_BANDS.find? (fun b => decide (b.low ≤ r ∧ r ≤ b.high)) = none := by
    rw [List.find?_eq_none]
    intro b hb
    simp only [AQI_BANDS, List.mem_cons, List.not_mem_nil, or_false] at hb
    simp only [decide_eq_true_eq]
    intro hcond
    apply h
    unfold inUnion
    rcases hb with rfl | rfl | rfl | rfl | rfl | rfl
    · exact Or.inl hcond
    · exact Or.inr (Or.inl hcond)
    · exact Or.inr (Or.inr (Or.inl hcond))
    · exact Or.inr (Or.inr (Or.inr (Or.inl hcond)))
    · exact Or.inr (Or.inr (Or.inr (Or.inr (Or.inl hcond))))
    · exact Or.inr (Or.inr (Or.inr (Or.inr (Or.inr hcond))))
  unfold aqi_color
  rw [hfind]

/-- C5 is false as stated: the value 50.5 lies in `[0, 500]` but falls
in the real gap between the bands `(0,50)` and `(51,100)`, so
`aqi_color` returns the sentinel. -/
theorem aqi_color_gap_counterexample :
    aqi_color (101 / 2) = ("#000000", "Unknown") ∧
    (0 : ℚ) ≤ 101 / 2 ∧ (101 / 2 : ℚ) ≤ 500 := by
  refine ⟨aqi_color_sentinel_of_not _ ?_, by norm_num, by norm_num⟩
  unfold inUnion
  norm_num

/-- C5 corrected: the six AQI bands are ascending and non-overlapping
but contiguous only over the integers; `aqi_color` returns the sentinel
exactly for values outside the union
`[0,50] ∪ [51,100] ∪ [101,200] ∪ [201,300] ∪ [301,400] ∪ [401,500]`
(so also in the five unit gaps inside `[0,500]`), and every integer
value in `[0, 500]` gets a non-sentinel `(color, label)` pair. -/
theorem aqi_color_sentinel_iff (v : ℚ) (n : ℤ) (hn0 : 0 ≤ n) (hn : n ≤ 500) :
    (aqi_color v = ("#000000", "Unknown") ↔ ¬ inUnion v) ∧
    aqi_color (n : ℚ) ≠ ("#000000", "Unknown") := by
  constructor
  · constructor
    · intro hsent hu
      exact aqi_color_ne_sentinel v hu hsent
    · exact aqi_color_sentinel_of_not v
  · apply aqi_color_ne_sentinel
    unfold inUnion
    rcases (by omega :
        (0 ≤ n ∧ n ≤ 50) ∨ (51 ≤ n ∧ n ≤ 100) ∨ (101 ≤ n ∧ n ≤ 200) ∨
        (201 ≤ n ∧ n ≤ 300) ∨ (301 ≤ n ∧ n ≤ 400) ∨ (401 ≤ n ∧ n ≤ 500)) with
      ⟨a, b⟩ | ⟨a, b⟩ | ⟨a, b⟩ | ⟨a, b⟩ | ⟨a, b⟩ | ⟨a, b⟩
    · exact Or.inl ⟨by exact_mod_cast a, by exact_mod_cast b⟩
    · exact Or.inr (Or.inl ⟨by exact_mod_cast a, by exact_mod_cast b⟩)
    · exact Or.inr (Or.inr (Or.inl ⟨by exact_mod_cast a, by exact_mod_cast b⟩))
    · exact Or.inr (Or.inr (Or.inr (Or.inl ⟨by exact_mod_cast a, by exact_mod_cast b⟩)))
    · exact Or.inr (Or.inr (Or.inr (Or.inr (Or.inl
        ⟨by exact_mod_cast a, by exact_mod_cast b⟩))))
    · exact Or.inr (Or.inr (Or.inr (Or.inr (Or.inr
        ⟨by exact_mod_cast a, by exact_mod_cast b⟩))))

/-- Witness for the corrected C5 at `v = n = 75`. -/
theorem aqi_color_sentinel_iff_witness :
    ((aqi_color 75 = ("#000000", "Unknown") ↔ ¬ inUnion 75) ∧
     aqi_color ((75 : ℤ) : ℚ) ≠ ("#000000", "Unknown")) :=
  aqi_color_sentinel_iff 75 75 (by decide) (by decide)

/-- C6: `aqi_color` returns the `(color, label)` of the first band in
`AQI_BANDS` order whose `[low, high]` contains the value (inclusive
both ends); in particular 0 is Good, 500 is Severe and 75 is
Satisfactory. -/
theorem aqi_color_first_match (v : ℚ)
    (h : ∃ b ∈ AQI_BANDS, b.low ≤ v ∧ v ≤ b.high) :
    (∃ l₁ b l₂, AQI_BANDS = l₁ ++ b :: l₂ ∧ (b.low ≤ v ∧ v ≤ b.high) ∧
      (∀ b' ∈ l₁, ¬(b'.low ≤ v ∧ v ≤ b'.high)) ∧
      aqi_color v = (b.color, b.label)) ∧
    aqi_color 0 = ("#009966", "Good") ∧
    aqi_color 500 = ("#7e0023", "Severe") ∧
    aqi_color 75 = ("#ffde33", "Satisfactory") := by
  refine ⟨?_, by decide, by decide, by decide⟩
  have hsome : (AQI_BANDS.find? (fun b => decide (b.low ≤ v ∧ v ≤ b.high))).isSome := by
    rw [List.find?_isSome]
    obtain ⟨b, hb, hcond⟩ := h
    exact ⟨b, hb, by simpa using hcond⟩
  obtain ⟨b, hfind⟩ := Option.isSome_iff_exists.mp hsome
  obtain ⟨l₁, l₂, hsplit, hpb, hall⟩ := find_first_split _ _ _ hfind
  refine ⟨l₁, b, l₂, hsplit, by simpa using hpb, ?_, ?_⟩
  · intro b' hb'
    simpa using hall b' hb'
  · unfold aqi_color
    rw [hfind]

/-- Witness for C6 at `v = 75`. -/
theorem aqi_color_first_match_witness :
    (∃ l₁ b l₂, AQI_BANDS = l₁ ++ b :: l₂ ∧ (b.low ≤ 75 ∧ (75 : ℚ) ≤ b.high) ∧
      (∀ b' ∈ l₁, ¬(b'.low ≤ 75 ∧ (75 : ℚ) ≤ b'.high)) ∧
      aqi_color 75 = (b.color, b.label)) ∧
    aqi_color 0 = ("#009966", "Good") ∧
    aqi_color 500 = ("#7e0023", "Severe") ∧
    aqi_color 75 = ("#ffde33", "Satisfactory") :=
  aqi_color_first_match 75 (by decide)

/-- C7: `is_within_india` is true exactly on the closed rectangle
`6 ≤ lat ≤ 36`, `68 ≤ lon ≤ 98`, all four edges inclusive; the spec's
five sample points behave as stated. -/
theorem is_within_india_iff :
    (∀ lat lon : ℚ, is_within_india lat lon = true ↔
      (6 ≤ lat ∧ lat ≤ 36 ∧ 68 ≤ lon ∧ lon ≤ 98)) ∧
    is_within_india 21 79 = true ∧ is_within_india 6 68 = true ∧
    is_within_india 36 98 = true ∧ is_within_india (59 / 10) 79 = false ∧
    is_within_india 37 79 = false := by
  refine ⟨?_, by decide, by decide, by decide, ?_, by decide⟩
  · intro lat lon
    simp [is_within_india, and_assoc]
  · simp only [is_within_india]
    norm_num

/-- C8: an upstream fetch failure is caught locally by the climate and
map paths, which return the inline red error panel as a normal string,
while the air-quality and satellite paths propagate the error to the
caller. -/
theorem fetch_error_asymmetry :
    (∀ (e : String) (render : Unit → String),
      get_climate_data render (Except.error e) = climate_error_html e) ∧
    (∀ (e : String) (render : Unit → String),
      create_india_map render (Except.error e) = map_error_html e) ∧
    (∀ (e : String) (render : Unit → String),
      get_air_quality render (Except.error e) = Except.error e) ∧
    (∀ (e : String) (render : Unit → String),
      get_satellite_radiation render (Except.error e) = Except.error e) :=
  ⟨fun _ _ => rfl, fun _ _ => rfl, fun _ _ => rfl, fun _ _ => rfl⟩

/-- C9: `sub_index`, `aqi_color` and the composite AQI are
deterministic pure functions of their arguments: identical inputs give
identical outputs, with no hidden state (the Python functions read only
their arguments and the immutable module-level tables). -/
theorem aqi_engine_deterministic
    (C C' : ℚ) (bps bps' : List Band) (v v' : ℚ)
    (x1 x2 x3 x4 x5 x6 y1 y2 y3 y4 y5 y6 : ℚ)
    (hC : C = C') (hbps : bps = bps') (hv : v = v')
    (h1 : x1 = y1) (h2 : x2 = y2) (h3 : x3 = y3)
    (h4 : x4 = y4) (h5 : x5 = y5) (h6 : x6 = y6) :
    sub_index C bps = sub_index C' bps' ∧
    aqi_color v = aqi_color v' ∧
    composite_aqi x1 x2 x3 x4 x5 x6 = composite_aqi y1 y2 y3 y4 y5 y6 := by
  subst hC; subst hbps; subst hv
  subst h1; subst h2; subst h3; subst h4; subst h5; subst h6
  exact ⟨rfl, rfl, rfl⟩

/-- Witness for C9 at concrete inputs. -/
theorem aqi_engine_deterministic_witness :
    sub_index 7 bp_pm2_5 = sub_index 7 bp_pm2_5 ∧
    aqi_color 75 = aqi_color 75 ∧
    composite_aqi 1 2 3 4 5 6 = composite_aqi 1 2 3 4 5 6 :=
  aqi_engine_deterministic 7 7 bp_pm2_5 bp_pm2_5 75 75
    1 2 3 4 5 6 1 2 3 4 5 6 rfl rfl rfl rfl rfl rfl rfl rfl rfl

/-- Linear interpolation inside a band stays within the band's index
range. -/
theorem interp_bounds (b : Band) (C : ℚ) (hlt : b.cLow < b.cHigh)
    (hi : b.iLow ≤ b.iHigh) (h1 : b.cLow ≤ C) (h2 : C ≤ b.cHigh) :
    b.iLow ≤ interp b C ∧ interp b C ≤ b.iHigh := by
  have hd : (0 : ℚ) < b.cHigh - b.cLow := by linarith
  have hs : 0 ≤ (b.iHigh - b.iLow) / (b.cHigh - b.cLow) :=
    div_nonneg (by linarith) hd.le
  constructor
  · have := mul_nonneg hs (by linarith : (0 : ℚ) ≤ C - b.cLow)
    unfold interp
    linarith
  · have hmul := mul_le_mul_of_nonneg_left
      (by linarith : C - b.cLow ≤ b.cHigh - b.cLow) hs
    have hcan : (b.iHigh - b.iLow) / (b.cHigh - b.cLow) * (b.cHigh - b.cLow) =
        b.iHigh - b.iLow := div_mul_cancel₀ _ (ne_of_gt hd)
    unfold interp
    linarith [hmul, hcan]

/-- A band whose index range is one of the six AQI ranges puts any
value between its endpoints in the union. -/
theorem inUnion_of_endpoint_pair (b : Band) (r : ℚ)
    (hpair : (b.iLow = 0 ∧ b.iHigh = 50) ∨ (b.iLow = 51 ∧ b.iHigh = 100) ∨
      (b.iLow = 101 ∧ b.iHigh = 200) ∨ (b.iLow = 201 ∧ b.iHigh = 300) ∨
      (b.iLow = 301 ∧ b.iHigh = 400) ∨ (b.iLow = 401 ∧ b.iHigh = 500))
    (h1 : b.iLow ≤ r) (h2 : r ≤ b.iHigh) : inUnion r := by
  unfold inUnion
  rcases hpair with ⟨e1, e2⟩ | ⟨e1, e2⟩ | ⟨e1, e2⟩ | ⟨e1, e2⟩ | ⟨e1, e2⟩ | ⟨e1, e2⟩ <;>
    rw [e1] at h1 <;> rw [e2] at h2
  · exact Or.inl ⟨h1, h2⟩
  · exact Or.inr (Or.inl ⟨h1, h2⟩)
  · exact Or.inr (Or.inr (Or.inl ⟨h1, h2⟩))
  · exact Or.inr (Or.inr (Or.inr (Or.inl ⟨h1, h2⟩)))
  · exact Or.inr (Or.inr (Or.inr (Or.inr (Or.inl ⟨h1, h2⟩))))
  · exact Or.inr (Or.inr (Or.inr (Or.inr (Or.inr ⟨h1, h2⟩))))

/-- On any table satisfying `tableOK`, `sub_index` always succeeds with
a value in the union of the six index ranges. -/
theorem sub_index_in_union_general (t : List Band) (hne : t ≠ []) (C : ℚ)
    (hok : tableOK t) : ∃ r, sub_index C t = some r ∧ inUnion r := by
  cases t with
  | nil => exact absurd rfl hne
  | cons b0 rest =>
    cases hfind : (b0 :: rest).find? (bandMatches C) with
    | some b =>
      obtain ⟨hlt, hile, hpair⟩ := hok b (List.mem_of_find?_eq_some hfind)
      have hcond : b.cLow ≤ C ∧ C ≤ b.cHigh := by
        simpa [bandMatches] using List.find?_some hfind
      have hb := interp_bounds b C hlt hile hcond.1 hcond.2
      refine ⟨interp b C, ?_, inUnion_of_endpoint_pair b _ hpair hb.1 hb.2⟩
      exact sub_index_eq_of_find _ _ _ hfind
        (by intro hc; rw [sub_eq_zero] at hc; exact absurd hc (ne_of_gt hlt))
    | none =>
      rw [sub_index_eq_of_none _ _ _ hfind]
      by_cases hC : C < b0.cLow
      · rw [if_pos hC]
        obtain ⟨-, hile, hpair⟩ := hok b0 (by simp)
        exact ⟨b0.iLow, rfl, inUnion_of_endpoint_pair b0 _ hpair le_rfl hile⟩
      · rw [if_neg hC]
        obtain ⟨-, hile, hpair⟩ := hok _ (List.getLastD_mem_cons rest b0)
        exact ⟨_, rfl, inUnion_of_endpoint_pair _ _ hpair hile le_rfl⟩

/-- C10: on each of the six tables every concentration (negative or
arbitrarily large included) yields a sub-index inside
`[0,50] ∪ [51,100] ∪ [101,200] ∪ [201,300] ∪ [301,400] ∪ [401,500]`,
and `aqi_color` of such a sub-index — or of the maximum of any
collection of them, since the union is closed under `max` — is never
the sentinel. -/
theorem sub_index_in_union (t : List Band) (ht : t ∈ tables) (C : ℚ) :
    (∃ r, sub_index C t = some r ∧ inUnion r ∧
      aqi_color r ≠ ("#000000", "Unknown")) ∧
    (∀ r1 r2 : ℚ, inUnion r1 → inUnion r2 → inUnion (max r1 r2)) := by
  have hok : tableOK t := by
    fin_cases ht <;> (unfold tableOK; decide)
  have hne : t ≠ [] := by
    fin_cases ht <;> decide
  obtain ⟨r, hr, hu⟩ := sub_index_in_union_general t hne C hok
  refine ⟨⟨r, hr, hu, aqi_color_ne_sentinel r hu⟩, fun r1 r2 h1 h2 => ?_⟩
  rcases max_cases r1 r2 with ⟨he, -⟩ | ⟨he, -⟩ <;> rw [he] <;> assumption

/-- Witness for C10 at the PM2.5 table with `C = 737`. -/
theorem sub_index_in_union_witness :
    (∃ r, sub_index 737 bp_pm2_5 = some r ∧ inUnion r ∧
      aqi_color r ≠ ("#000000", "Unknown")) ∧
    (∀ r1 r2 : ℚ, inUnion r1 → inUnion r2 → inUnion (max r1 r2)) :=
  sub_index_in_union bp_pm2_5 (by decide) 737
